import Mathlib

/-!
Shallow embedding of the `testcontainers-modules` crate
(`src/lib.rs`, `src/k3s.rs`, `src/gitea.rs`).

Pure computations (version resolution, feature-flag command composition,
builder methods, post-start command construction, TLS material shape,
kubeconfig rewriting) are translated into executable Lean definitions.
Rust `panic!`/`unwrap()`/`expect()` sites on otherwise-pure paths are
modelled by `Option`-valued functions where `none` stands for a panic.
External library types (`testcontainers`, `kube`, `rcgen`) are modelled
structurally, restricted to the fields and constructors this crate uses.
-/

/-- Model of the crate error enum `Error` (src/lib.rs, lines 45-74),
restricted to the variant the pure code paths construct:
`RuntimeConfig(String)`. -/
inductive Error where
  | RuntimeConfig (msg : String)
deriving DecidableEq

/-- Decidable equality for `Except`, used to evaluate the `Result`-valued
functions of the embedding on concrete inputs. -/
instance {ε α : Type} [DecidableEq ε] [DecidableEq α] : DecidableEq (Except ε α) := fun a b =>
  match a, b with
  | .ok x, .ok y =>
    match decEq x y with
    | isTrue h => isTrue (h ▸ rfl)
    | isFalse h => isFalse fun hh => h (Except.ok.inj hh)
  | .ok _, .error _ => isFalse fun hh => Except.noConfusion hh
  | .error _, .ok _ => isFalse fun hh => Except.noConfusion hh
  | .error x, .error y =>
    match decEq x y with
    | isTrue h => isTrue (h ▸ rfl)
    | isFalse h => isFalse fun hh => h (Except.error.inj hh)

/-- Model of `testcontainers::core::ContainerPort`; only the `Tcp`
constructor is used by this crate. -/
inductive ContainerPort where
  | Tcp (port : Nat)
deriving DecidableEq

/-- Model of `ContainerPort::as_u16`. -/
def ContainerPort.as_u16 : ContainerPort → Nat
  | .Tcp p => p

/-- Model of `testcontainers::core::Mount` restricted to bind mounts
(the only kind this crate builds): a source path and a target path. -/
structure Mount where
  source : Option String
  target : Option String
deriving DecidableEq

/-- Model of `Mount::bind_mount`. -/
def Mount.bind_mount (s t : String) : Mount :=
  { source := some s, target := some t }

/-- Model of Rust `str::strip_prefix(char)`: returns the rest of the
string when it starts with the given character, `none` otherwise. -/
def stripPrefixChar (c : Char) (s : String) : Option String :=
  match s.data with
  | head :: rest => if head = c then some (String.mk rest) else none
  | [] => none

/-- Constant `K3S_DEFAULT_KUBE_VERSION` (src/k3s.rs line 20). -/
def K3S_DEFAULT_KUBE_VERSION : String := "1.31"

/-- Constant `K3S_IMAGE_NAME` (src/k3s.rs line 19). -/
def K3S_IMAGE_NAME : String := "rancher/k3s"

/-- Constant `AVAILABLE_K3S_IMAGE_TAGS` (src/k3s.rs lines 23-30). -/
def AVAILABLE_K3S_IMAGE_TAGS : List (String × String) :=
  [("1.31", "v1.31.1-k3s1"),
   ("1.30", "v1.30.5-k3s1"),
   ("1.29", "v1.29.9-k3s1"),
   ("1.28", "v1.28.14-k3s1"),
   ("1.27", "v1.27.16-k3s1"),
   ("1.26", "v1.26.15-k3s1")]

/-- Constant `RUNTIME_FOLDER_SUFFIX` of module `k3s` (src/k3s.rs line 22). -/
def K3S_RUNTIME_FOLDER_SUFFIX : String := "k3s-runtime"

/-- Constant `K3S_KUBECONFIG_PORT` (src/k3s.rs line 13). -/
def K3S_KUBECONFIG_PORT : Nat := 9443

/-- Constant `K3S_KUBE_API_PORT` (src/k3s.rs line 15). -/
def K3S_KUBE_API_PORT : ContainerPort := ContainerPort.Tcp 6443

/-- Constant `K3S_TRAEFIK_HTTP_PORT` (src/k3s.rs line 16). -/
def K3S_TRAEFIK_HTTP_PORT : ContainerPort := ContainerPort.Tcp 80

/-- Constant `K3S_RANCHER_WEBHOOK_PORT` (src/k3s.rs line 17). -/
def K3S_RANCHER_WEBHOOK_PORT : ContainerPort := ContainerPort.Tcp 8443

/-- Input normalization performed by `version_to_tag` (src/k3s.rs
lines 54-60): strip one leading `v` (Rust `strip_prefix('v')` with
`unwrap_or`), then map the empty string and `"latest"` to the default
version. -/
def version_to_tag_normalize (version : String) : String :=
  let version := (stripPrefixChar 'v' version).getD version
  if version = "" || version = "latest" then K3S_DEFAULT_KUBE_VERSION else version

/-- Model of `version_to_tag` (src/k3s.rs lines 53-68): normalize the
input, then look it up in `AVAILABLE_K3S_IMAGE_TAGS`; a miss is a
`RuntimeConfig` error naming the unsupported version. -/
def version_to_tag (version : String) : Except Error String :=
  let version := version_to_tag_normalize version
  match AVAILABLE_K3S_IMAGE_TAGS.find? (fun kv => kv.1 = version) with
  | some kv => Except.ok kv.2
  | none =>
    Except.error (Error.RuntimeConfig
      ("Kube version \x27" ++ version ++ "\x27 is not supported"))

/-- Model of struct `K3sFeatures` (src/k3s.rs lines 70-81), fields in
source order. -/
structure K3sFeatures where
  snapshotter : String
  traefik : Bool
  network_policy : Bool
  coredns : Bool
  service_lb : Bool
  local_storage : Bool
  metrics_server : Bool
  helm_controller : Bool
  agent : Bool
deriving DecidableEq

/-- Model of `Default for K3sFeatures` (src/k3s.rs lines 83-97). -/
def K3sFeatures.default : K3sFeatures :=
  { snapshotter := "native"
    traefik := true
    network_policy := true
    coredns := true
    service_lb := true
    local_storage := true
    metrics_server := true
    helm_controller := true
    agent := true }

/-- Model of `IntoIterator for &K3sFeatures` (src/k3s.rs lines 99-133):
the startup argument list, built by the same sequence of conditional
pushes as the source. -/
def K3sFeatures.into_iter (f : K3sFeatures) : List String :=
  let cmd := ["server", "--snapshotter=" ++ f.snapshotter]
  let cmd := if !f.traefik then cmd ++ ["--disable=traefik"] else cmd
  let cmd := if !f.service_lb then cmd ++ ["--disable=servicelb"] else cmd
  let cmd := if !f.coredns then cmd ++ ["--disable=coredns"] else cmd
  let cmd := if !f.agent then cmd ++ ["--disable-agent"] else cmd
  let cmd := if !f.helm_controller then cmd ++ ["--disable-helm-controller"] else cmd
  let cmd := if !f.local_storage then cmd ++ ["--disable=local-storage"] else cmd
  let cmd := if !f.metrics_server then cmd ++ ["--disable=metrics-server"] else cmd
  let cmd := if !f.network_policy then cmd ++ ["--disable-network-policy"] else cmd
  cmd

/-- Model of struct `K3s` (src/k3s.rs lines 32-37). -/
structure K3s where
  kubeconfig_mount : Mount
  tag : String
  features : K3sFeatures
deriving DecidableEq

/-- Model of `Default for K3s` (src/k3s.rs lines 39-51). The build output
directory is taken as a parameter (the source reads the `OUT_DIR`
environment variable via `get_runtime_folder`); the `unwrap()` on
`version_to_tag` is modelled by the `Option` result, `none` standing for
a panic. -/
def K3s.defaultWith (build_out_dir : String) : Option K3s :=
  (version_to_tag K3S_DEFAULT_KUBE_VERSION).toOption.map fun tag =>
    { kubeconfig_mount :=
        Mount.bind_mount (build_out_dir ++ "/" ++ K3S_RUNTIME_FOLDER_SUFFIX) "/etc/rancher/k3s/"
      tag := tag
      features := K3sFeatures.default }

/-- Model of `K3s::with_kube_version` (src/k3s.rs lines 170-175). The
source calls `version_to_tag(version).unwrap()`; the panic on an
unsupported version is modelled by `none`. -/
def K3s.with_kube_version (self : K3s) (version : String) : Option K3s :=
  (version_to_tag version).toOption.map fun tag => { self with tag := tag }

/-- Model of `K3s::with_snapshotter` (src/k3s.rs lines 177-185). -/
def K3s.with_snapshotter (self : K3s) (snapshotter : String) : K3s :=
  { self with features := { self.features with snapshotter := snapshotter } }

/-- Model of `K3s::with_traefik` (src/k3s.rs lines 187-195). -/
def K3s.with_traefik (self : K3s) (traefik : Bool) : K3s :=
  { self with features := { self.features with traefik := traefik } }

/-- Model of `K3s::with_service_lb` (src/k3s.rs lines 197-205). -/
def K3s.with_service_lb (self : K3s) (service_lb : Bool) : K3s :=
  { self with features := { self.features with service_lb := service_lb } }

/-- Model of `K3s::with_coredns` (src/k3s.rs lines 207-215). -/
def K3s.with_coredns (self : K3s) (coredns : Bool) : K3s :=
  { self with features := { self.features with coredns := coredns } }

/-- Model of `K3s::with_agent` (src/k3s.rs lines 217-222). -/
def K3s.with_agent (self : K3s) (agent : Bool) : K3s :=
  { self with features := { self.features with agent := agent } }

/-- Model of `K3s::with_helm_controller` (src/k3s.rs lines 224-232). -/
def K3s.with_helm_controller (self : K3s) (helm_controller : Bool) : K3s :=
  { self with features := { self.features with helm_controller := helm_controller } }

/-- Model of `K3s::with_local_storage` (src/k3s.rs lines 234-242). -/
def K3s.with_local_storage (self : K3s) (local_storage : Bool) : K3s :=
  { self with features := { self.features with local_storage := local_storage } }

/-- Model of `K3s::with_metrics_server` (src/k3s.rs lines 244-252). -/
def K3s.with_metrics_server (self : K3s) (metrics_server : Bool) : K3s :=
  { self with features := { self.features with metrics_server := metrics_server } }

/-- Model of `K3s::with_network_policy` (src/k3s.rs lines 254-262). -/
def K3s.with_network_policy (self : K3s) (network_policy : Bool) : K3s :=
  { self with features := { self.features with network_policy := network_policy } }

/-- Model of `K3s::with_all_features` (src/k3s.rs lines 264-278). Note
the source struct-update lists seven feature fields and keeps the rest
(`snapshotter` and `agent`) via `..self.features`. -/
def K3s.with_all_features (self : K3s) (all_features : Bool) : K3s :=
  { self with
      features :=
        { self.features with
            traefik := all_features
            service_lb := all_features
            coredns := all_features
            helm_controller := all_features
            network_policy := all_features
            local_storage := all_features
            metrics_server := all_features } }

/-- Model of `Image::cmd for K3s` (src/k3s.rs lines 156-158): the startup
command is the feature iterator. -/
def K3s.cmd (self : K3s) : List String :=
  self.features.into_iter

/-- Model of `Image::expose_ports for K3s` (src/k3s.rs lines 160-166). -/
def K3s.expose_ports (self : K3s) : List ContainerPort :=
  if self.features.traefik then
    [K3S_KUBE_API_PORT, K3S_RANCHER_WEBHOOK_PORT, K3S_TRAEFIK_HTTP_PORT]
  else
    [K3S_KUBE_API_PORT, K3S_RANCHER_WEBHOOK_PORT]

/-- Model of `kube::config::Cluster` (external crate), restricted to the
`server` field the crate rewrites plus representative further optional
fields standing for the rest of the document entry. -/
structure Cluster where
  server : Option String
  certificate_authority_data : Option String
  insecure_skip_tls_verify : Option Bool
deriving DecidableEq

/-- Model of `kube::config::NamedCluster` (external crate): a name and an
optional cluster body. -/
structure NamedCluster where
  name : String
  cluster : Option Cluster
deriving DecidableEq

/-- Model of `kube::config::Kubeconfig` (external crate), restricted to
the cluster list the crate mutates plus representative further fields
standing for the rest of the document. -/
structure Kubeconfig where
  preferences : Option String
  clusters : List NamedCluster
  auth_infos : List String
  contexts : List String
  current_context : Option String
deriving DecidableEq

/-- The kubeconfig-rewriting step of `K3s::get_client` (src/k3s.rs lines
300-304): for each cluster entry, if a server URL is present, replace it
with `https://127.0.0.1:<port>`. -/
def K3s.get_client_rewrite (config : Kubeconfig) (port : Nat) : Kubeconfig :=
  { config with
      clusters := config.clusters.map fun named =>
        { named with
            cluster := named.cluster.map fun c =>
              { c with server := c.server.map fun _ => "https://127.0.0.1:" ++ toString port } } }

/-- Concrete one-cluster kubeconfig whose cluster entry has no `server`
field; exercises the rewrite step of `K3s::get_client`. -/
def kubeconfigNoServer : Kubeconfig :=
  { preferences := none
    clusters :=
      [{ name := "default"
         cluster := some
           { server := none
             certificate_authority_data := some "Q0E="
             insecure_skip_tls_verify := none } }]
    auth_infos := ["default"]
    contexts := ["default"]
    current_context := some "default" }

/-- Concrete cluster entry with a server URL, as the k3s container writes
it (in-container API address). -/
def namedClusterSample : NamedCluster :=
  { name := "default"
    cluster := some
      { server := some "https://10.43.0.1:6443"
        certificate_authority_data := some "Q0E="
        insecure_skip_tls_verify := none } }

/-- Concrete one-cluster kubeconfig with a server URL present. -/
def kubeconfigSample : Kubeconfig :=
  { preferences := none
    clusters := [namedClusterSample]
    auth_infos := ["default"]
    contexts := ["default"]
    current_context := some "default" }

/-- C2: `version_to_tag` strips one leading `v`, sends the empty string
and `"latest"` to the default version `1.31`, returns the table tag on an
exact match (so resolving `""`, `"latest"` and the default agree, and a
`v`-prefixed supported version resolves like the bare one), and on any
string with no table match returns the `RuntimeConfig` error naming the
normalized unsupported version — it is total, never a panic. -/
theorem version_to_tag_spec (v : String) :
    version_to_tag "" = version_to_tag K3S_DEFAULT_KUBE_VERSION ∧
    version_to_tag "latest" = version_to_tag K3S_DEFAULT_KUBE_VERSION ∧
    AVAILABLE_K3S_IMAGE_TAGS.all
      (fun kv => decide (version_to_tag kv.1 = Except.ok kv.2) &&
        decide (version_to_tag ("v" ++ kv.1) = Except.ok kv.2)) = true ∧
    ((∃ t, version_to_tag v = Except.ok t ∧
        (version_to_tag_normalize v, t) ∈ AVAILABLE_K3S_IMAGE_TAGS) ∨
      version_to_tag v = Except.error (Error.RuntimeConfig
        ("Kube version \x27" ++ version_to_tag_normalize v ++ "\x27 is not supported"))) := by
  refine ⟨by decide, by decide, by decide, ?_⟩
  cases h : AVAILABLE_K3S_IMAGE_TAGS.find? (fun kv => kv.1 = version_to_tag_normalize v) with
  | none =>
    right
    simp [version_to_tag, h]
  | some kv =>
    left
    have hmem := List.mem_of_find?_eq_some h
    have hpred := List.find?_some h
    simp only [decide_eq_true_eq] at hpred
    refine ⟨kv.2, by simp [version_to_tag, h], ?_⟩
    rw [← hpred]
    simpa using hmem

/-- C4 counterexample: an unsupported version string passed to
`K3s::with_kube_version` does not surface as a returned error — the
source unwraps the `version_to_tag` result, which panics (modelled as
`none`), even though `version_to_tag` itself had produced an error
value. -/
theorem with_kube_version_panic_counterexample :
    version_to_tag "1.10" =
      Except.error (Error.RuntimeConfig "Kube version \x271.10\x27 is not supported") ∧
    ((K3s.defaultWith "/build/out").bind fun k => k.with_kube_version "1.10") = none := by
  decide

/-- C4 amended: `with_kube_version` succeeds (keeping all other fields
and installing the resolved tag) exactly when the version resolves, and
panics — modelled by `none` — exactly when `version_to_tag` returns a
`RuntimeConfig` error. -/
theorem with_kube_version_spec (k : K3s) (v : String) :
    (∃ t, version_to_tag v = Except.ok t ∧ k.with_kube_version v = some { k with tag := t }) ∨
    (∃ e, version_to_tag v = Except.error e ∧ k.with_kube_version v = none) := by
  cases h : version_to_tag v with
  | ok t =>
    left
    exact ⟨t, rfl, by simp only [K3s.with_kube_version, h, Except.toOption, Option.map]⟩
  | error e =>
    right
    exact ⟨e, rfl, by simp only [K3s.with_kube_version, h, Except.toOption, Option.map]⟩

/-- C6 counterexample: starting from the default K3s descriptor,
`with_all_features false` leaves the node-agent feature enabled — it is
not set to the bulk value. -/
theorem with_all_features_agent_counterexample :
    ((K3s.defaultWith "/build/out").map fun k => (k.with_all_features false).features.agent)
      = some true ∧
    ¬ ((K3s.defaultWith "/build/out").map fun k => (k.with_all_features false).features.agent)
      = some false := by
  decide

/-- C6 amended: `with_all_features b` sets traefik, service-lb, coredns,
helm controller, network-policy, local-storage and metrics-server to `b`,
and leaves the node agent, the snapshotter name and all non-feature
fields unchanged. -/
theorem with_all_features_spec (k : K3s) (b : Bool) :
    (k.with_all_features b).features.traefik = b ∧
    (k.with_all_features b).features.service_lb = b ∧
    (k.with_all_features b).features.coredns = b ∧
    (k.with_all_features b).features.helm_controller = b ∧
    (k.with_all_features b).features.network_policy = b ∧
    (k.with_all_features b).features.local_storage = b ∧
    (k.with_all_features b).features.metrics_server = b ∧
    (k.with_all_features b).features.agent = k.features.agent ∧
    (k.with_all_features b).features.snapshotter = k.features.snapshotter ∧
    (k.with_all_features b).tag = k.tag ∧
    (k.with_all_features b).kubeconfig_mount = k.kubeconfig_mount :=
  ⟨rfl, rfl, rfl, rfl, rfl, rfl, rfl, rfl, rfl, rfl, rfl⟩

/-- Conditional-push step of the feature iterator: pushing a flag when a
feature is off equals appending the conditional singleton. -/
theorem append_ite_push (b : Bool) (cmd : List String) (x : String) :
    (if !b then cmd ++ [x] else cmd) = cmd ++ (if b then [] else [x]) := by
  cases b <;> simp

/-- C7: the composed startup argument list is exactly `server`,
`--snapshotter=<name>`, then one disable flag per disabled feature in the
fixed order traefik, servicelb, coredns, agent, helm-controller,
local-storage, metrics-server, network-policy; and the image command is a
pure function of the feature configuration, so identical configurations
yield identical argument lists however they were assembled. -/
theorem k3s_cmd_composition (f : K3sFeatures) (k : K3s) :
    f.into_iter =
      ["server", "--snapshotter=" ++ f.snapshotter]
        ++ (if f.traefik then [] else ["--disable=traefik"])
        ++ (if f.service_lb then [] else ["--disable=servicelb"])
        ++ (if f.coredns then [] else ["--disable=coredns"])
        ++ (if f.agent then [] else ["--disable-agent"])
        ++ (if f.helm_controller then [] else ["--disable-helm-controller"])
        ++ (if f.local_storage then [] else ["--disable=local-storage"])
        ++ (if f.metrics_server then [] else ["--disable=metrics-server"])
        ++ (if f.network_policy then [] else ["--disable-network-policy"]) ∧
    k.cmd = k.features.into_iter := by
  constructor
  · simp only [K3sFeatures.into_iter, append_ite_push]
  · rfl

/-- C5 counterexample: the rewrite step of `K3s::get_client` applied to a
kubeconfig whose single cluster entry has no `server` field does not give
every cluster entry the server URL `https://127.0.0.1:<port>` — the
entry is left without a server URL. -/
theorem get_client_rewrite_counterexample :
    ¬ (∀ nc ∈ (K3s.get_client_rewrite kubeconfigNoServer 9443).clusters,
        nc.cluster.bind Cluster.server = some ("https://127.0.0.1:" ++ toString 9443)) := by
  decide

/-- C5 amended: the rewrite step of `K3s::get_client` keeps every
non-cluster field of the document and the cluster count, and maps each
cluster entry to the same entry with only its `server` field — when
present — replaced by exactly `https://127.0.0.1:<port>`; entries without
a cluster body or without a server URL are left as they were. -/
theorem get_client_rewrite_spec (config : Kubeconfig) (port : Nat) (i : Nat)
    (nc : NamedCluster) (h : config.clusters[i]? = some nc) :
    (K3s.get_client_rewrite config port).preferences = config.preferences ∧
    (K3s.get_client_rewrite config port).auth_infos = config.auth_infos ∧
    (K3s.get_client_rewrite config port).contexts = config.contexts ∧
    (K3s.get_client_rewrite config port).current_context = config.current_context ∧
    (K3s.get_client_rewrite config port).clusters.length = config.clusters.length ∧
    (K3s.get_client_rewrite config port).clusters[i]? =
      some { nc with cluster := nc.cluster.map fun c =>
        { c with server := c.server.map fun _ => "https://127.0.0.1:" ++ toString port } } := by
  refine ⟨rfl, rfl, rfl, rfl, by simp [K3s.get_client_rewrite], ?_⟩
  simp [K3s.get_client_rewrite, List.getElem?_map, h]

/-- Witness for the amended C5 statement at a concrete one-cluster
document and port 9443. -/
theorem get_client_rewrite_spec_witness :
    (K3s.get_client_rewrite kubeconfigSample 9443).preferences = kubeconfigSample.preferences ∧
    (K3s.get_client_rewrite kubeconfigSample 9443).auth_infos = kubeconfigSample.auth_infos ∧
    (K3s.get_client_rewrite kubeconfigSample 9443).contexts = kubeconfigSample.contexts ∧
    (K3s.get_client_rewrite kubeconfigSample 9443).current_context = kubeconfigSample.current_context ∧
    (K3s.get_client_rewrite kubeconfigSample 9443).clusters.length = kubeconfigSample.clusters.length ∧
    (K3s.get_client_rewrite kubeconfigSample 9443).clusters[0]? =
      some { namedClusterSample with cluster := namedClusterSample.cluster.map fun c =>
        { c with server := c.server.map fun _ => "https://127.0.0.1:" ++ toString 9443 } } :=
  get_client_rewrite_spec kubeconfigSample 9443 0 namedClusterSample (by decide)

/-- Constant `GIT_SSH_SERVER_PORT` (src/gitea.rs line 10). -/
def GIT_SSH_SERVER_PORT : Nat := 22

/-- Constant `GIT_HTTP_SERVER_PORT` (src/gitea.rs line 11). -/
def GIT_HTTP_SERVER_PORT : Nat := 80

/-- Constant `GIT_HTTPS_SERVER_PORT` (src/gitea.rs line 12). -/
def GIT_HTTPS_SERVER_PORT : Nat := 443

/-- Constant `GITEA_DEFAULT_ADMIN_USERNAME` (src/gitea.rs line 14). -/
def GITEA_DEFAULT_ADMIN_USERNAME : String := "git-admin"

/-- Constant `GITEA_DEFAULT_ADMIN_PASSWORD` (src/gitea.rs line 15). -/
def GITEA_DEFAULT_ADMIN_PASSWORD : String := "git-admin"

/-- Constant `GITEA_IMAGE_NAME` (src/gitea.rs line 17). -/
def GITEA_IMAGE_NAME : String := "gitea/gitea"

/-- Constant `GITEA_IMAGE_TAG` (src/gitea.rs line 18). -/
def GITEA_IMAGE_TAG : String := "1.22.3-rootless"

/-- Constant `GITEA_SSH_PORT` (src/gitea.rs line 19). -/
def GITEA_SSH_PORT : ContainerPort := ContainerPort.Tcp 2222

/-- Constant `GITEA_HTTP_PORT` (src/gitea.rs line 20): the container port
the Gitea web server listens on (plain HTTP without TLS, HTTPS with). -/
def GITEA_HTTP_PORT : ContainerPort := ContainerPort.Tcp 3000

/-- Constant `GITEA_HTTP_REDIRECT_PORT` (src/gitea.rs line 21): the
container port used as the HTTP-to-HTTPS redirect target. -/
def GITEA_HTTP_REDIRECT_PORT : ContainerPort := ContainerPort.Tcp 3080

/-- Constant `CONTAINER_CONFIG_FOLDER` (src/gitea.rs line 23). -/
def CONTAINER_CONFIG_FOLDER : String := "/etc/gitea"

/-- Constant `CONTAINER_DATA_FOLDER` (src/gitea.rs line 24). -/
def CONTAINER_DATA_FOLDER : String := "/var/lib/gitea"

/-- Constant `RUNTIME_FOLDER_SUFFIX` of module `gitea` (src/gitea.rs line 26). -/
def GITEA_RUNTIME_FOLDER_SUFFIX : String := "gitea-runtime"

/-- Constant `TLS_CERT_FILE_NAME` (src/gitea.rs line 28). -/
def TLS_CERT_FILE_NAME : String := "cert.pem"

/-- Constant `TLS_KEY_FILE_NAME` (src/gitea.rs line 29). -/
def TLS_KEY_FILE_NAME : String := "key.pem"

/-- Model of `rcgen::BasicConstraints` (external crate). -/
inductive BasicConstraints where
  | Unconstrained
  | Constrained (pathLen : Nat)
deriving DecidableEq

/-- Model of `rcgen::IsCa` (external crate), restricted to the
constructors this crate uses (`NoCa` is the `CertificateParams`
default, `Ca` is set for the root certificate). -/
inductive IsCa where
  | NoCa
  | Ca (constraints : BasicConstraints)
deriving DecidableEq

/-- Model of `rcgen::CertificateParams` (external crate), restricted to
the fields this crate sets: the subject-alternative-name list given to
`CertificateParams::new` and the `is_ca` marker. -/
structure CertificateParams where
  subject_alt_names : List String
  is_ca : IsCa
deriving DecidableEq

/-- Model of `rcgen::CertificateParams::new`: records the
subject-alternative names; `is_ca` keeps its default `NoCa`. -/
def CertificateParams.new (names : List String) : CertificateParams :=
  { subject_alt_names := names, is_ca := IsCa.NoCa }

/-- Model of `rcgen::Certificate` (external crate): the parameters it was
built from plus the parameters of its issuer (`none` for a self-signed
certificate). Key material is opaque randomness and is not modelled. -/
structure Certificate where
  params : CertificateParams
  issuer : Option CertificateParams
deriving DecidableEq

/-- Model of `rcgen::CertificateParams::self_signed`. -/
def CertificateParams.self_signed (p : CertificateParams) : Certificate :=
  { params := p, issuer := none }

/-- Model of `rcgen::CertificateParams::signed_by`: the issuing
certificate's parameters are recorded as the issuer. -/
def CertificateParams.signed_by (p : CertificateParams) (issuing : Certificate) : Certificate :=
  { params := p, issuer := some issuing.params }

/-- Model of a PEM-encoded artifact held by `GiteaTlsCert`: either the
serialization of a certificate synthesized in-process, an opaque
serialized private key, or a caller-supplied PEM string taken verbatim. -/
inductive Pem where
  | generated (c : Certificate)
  | keyPem
  | external (s : String)
deriving DecidableEq

/-- Subject-alternative names of a synthesized certificate PEM. -/
def Pem.sanNames : Pem → Option (List String)
  | .generated c => some c.params.subject_alt_names
  | _ => none

/-- CA marker of a synthesized certificate PEM. -/
def Pem.caFlag : Pem → Option IsCa
  | .generated c => some c.params.is_ca
  | _ => none

/-- Issuer parameters of a synthesized certificate PEM (`some none` for a
self-signed certificate). -/
def Pem.issuerOf : Pem → Option (Option CertificateParams)
  | .generated c => some c.issuer
  | _ => none

/-- Model of struct `GiteaTlsCert` (src/gitea.rs lines 325-330). -/
structure GiteaTlsCert where
  cert : Pem
  key : Pem
  ca : Option Pem
deriving DecidableEq

/-- Model of `GiteaTlsCert::new` (src/gitea.rs lines 339-362): a fresh
self-signed CA marked `Ca(Unconstrained)`, a hostname list that prepends
the given hostname to `["localhost", "127.0.0.1", "::1"]` unless it is
`"localhost"`, and an end-entity certificate over that list signed by the
CA; the CA certificate is kept in the `ca` field. -/
def GiteaTlsCert.new (hostname : String) : GiteaTlsCert :=
  let ca_cert := CertificateParams.new ["Gitea root CA"]
  let ca_cert := { ca_cert with is_ca := IsCa.Ca BasicConstraints.Unconstrained }
  let ca_cert := ca_cert.self_signed
  let hostnames := ["localhost", "127.0.0.1", "::1"]
  let hostnames := if hostname ≠ "localhost" then hostname :: hostnames else hostnames
  let cert := (CertificateParams.new hostnames).signed_by ca_cert
  { cert := Pem.generated cert
    key := Pem.keyPem
    ca := some (Pem.generated ca_cert) }

/-- Model of `GiteaTlsCert::from_pem` (src/gitea.rs lines 364-370):
caller-supplied certificate and key taken verbatim, no CA. -/
def GiteaTlsCert.from_pem (cert key : String) : GiteaTlsCert :=
  { cert := Pem.external cert
    key := Pem.external key
    ca := none }

/-- Model of `Default for GiteaTlsCert` (src/gitea.rs lines 332-336). -/
def GiteaTlsCert.default : GiteaTlsCert :=
  GiteaTlsCert.new "localhost"

/-- Model of enum `GiteaRepo` (src/gitea.rs lines 387-391). -/
inductive GiteaRepo where
  | Private (name : String)
  | Public (name : String)
deriving DecidableEq

/-- Model of `testcontainers::core::CmdWaitFor`, restricted to the
constructor this crate uses: `exit_code`. -/
inductive CmdWaitFor where
  | exitCode (code : Nat)
deriving DecidableEq

/-- Model of `testcontainers::core::ExecCommand`: the command vector and
its optional readiness condition. -/
structure ExecCommand where
  cmd : List String
  ready : Option CmdWaitFor
deriving DecidableEq

/-- Model of `ExecCommand::new`. -/
def ExecCommand.new (v : List String) : ExecCommand :=
  { cmd := v, ready := none }

/-- Model of `ExecCommand::with_cmd_ready_condition`. -/
def ExecCommand.with_cmd_ready_condition (e : ExecCommand) (c : CmdWaitFor) : ExecCommand :=
  { e with ready := some c }

/-- Model of `testcontainers::TestcontainersError` (external crate),
opaque: `Gitea::exec_after_start` never constructs it. -/
inductive TestcontainersError where
  | other (msg : String)
deriving DecidableEq

/-- Model of struct `Gitea` (src/gitea.rs lines 31-43); the `config_env`
hash map is modelled as an association list. -/
structure Gitea where
  config_folder : Mount
  data_folder : Mount
  admin_username : String
  admin_password : String
  admin_key : Option String
  admin_commands : List (List String)
  config_env : List (String × String)
  tls : Option GiteaTlsCert
  hostname : String
  repos : List GiteaRepo
deriving DecidableEq

/-- Model of `Default for Gitea` (src/gitea.rs lines 45-63); the build
output directory is taken as a parameter (the source reads the `OUT_DIR`
environment variable via `get_runtime_folder`). -/
def Gitea.defaultWith (out_dir : String) : Gitea :=
  { config_folder :=
      Mount.bind_mount (out_dir ++ "/" ++ GITEA_RUNTIME_FOLDER_SUFFIX ++ "/config")
        CONTAINER_CONFIG_FOLDER
    data_folder :=
      Mount.bind_mount (out_dir ++ "/" ++ GITEA_RUNTIME_FOLDER_SUFFIX ++ "/data")
        CONTAINER_DATA_FOLDER
    admin_username := GITEA_DEFAULT_ADMIN_USERNAME
    admin_password := GITEA_DEFAULT_ADMIN_PASSWORD
    admin_key := none
    admin_commands := []
    config_env := []
    tls := none
    hostname := "localhost"
    repos := [] }

/-- Model of `Gitea::with_admin_account` (src/gitea.rs lines 179-191). -/
def Gitea.with_admin_account (self : Gitea) (username password : String)
    (key : Option String) : Gitea :=
  { self with admin_username := username, admin_password := password, admin_key := key }

/-- Model of `Gitea::with_hostname` (src/gitea.rs lines 193-198). -/
def Gitea.with_hostname (self : Gitea) (hostname : String) : Gitea :=
  { self with hostname := hostname }

/-- Model of `Gitea::with_repo` (src/gitea.rs lines 200-204). -/
def Gitea.with_repo (self : Gitea) (repo : GiteaRepo) : Gitea :=
  { self with repos := self.repos ++ [repo] }

/-- Model of `Gitea::with_config_env` (src/gitea.rs lines 206-210);
`HashMap::insert` is modelled as replace-or-append on the association
list. -/
def Gitea.with_config_env (self : Gitea) (key value : String) : Gitea :=
  { self with
      config_env := (self.config_env.filter fun kv => kv.1 != key) ++ [(key, value)] }

/-- Model of `Gitea::with_admin_command` (src/gitea.rs lines 212-217). -/
def Gitea.with_admin_command (self : Gitea) (command : List String) : Gitea :=
  { self with admin_commands := self.admin_commands ++ [command] }

/-- Model of `Gitea::with_tls` (src/gitea.rs lines 219-224). -/
def Gitea.with_tls (self : Gitea) (enabled : Bool) : Gitea :=
  { self with tls := if enabled then some GiteaTlsCert.default else none }

/-- Model of `Gitea::with_tls_certs` (src/gitea.rs lines 226-231). -/
def Gitea.with_tls_certs (self : Gitea) (cert key : String) : Gitea :=
  { self with tls := some (GiteaTlsCert.from_pem cert key) }

/-- Model of `Gitea::tls_ca` (src/gitea.rs lines 233-235). -/
def Gitea.tls_ca (self : Gitea) : Option Pem :=
  self.tls.bind fun t => t.ca

/-- Model of `Gitea::protocol` (src/gitea.rs lines 307-313). -/
def Gitea.protocol (self : Gitea) : String :=
  if self.tls.isSome then "https" else "http"

/-- Model of `Gitea::api_url` (src/gitea.rs lines 315-322). -/
def Gitea.api_url (self : Gitea) (api : String) : String :=
  let api := (stripPrefixChar '/' api).getD api
  self.protocol ++ "://localhost:" ++ toString GITEA_HTTP_PORT.as_u16 ++ "/api/v1/" ++ api

/-- Model of `Gitea::create_admin_user_cmd` (src/gitea.rs lines 237-254). -/
def Gitea.create_admin_user_cmd (self : Gitea) : List String :=
  ["gitea", "admin", "user", "create",
   "--username", self.admin_username,
   "--password", self.admin_password,
   "--email", self.admin_username ++ "@localhost",
   "--admin"]

/-- Model of `Gitea::create_admin_key_cmd` (src/gitea.rs lines 256-275). -/
def Gitea.create_admin_key_cmd (self : Gitea) (key : String) : List String :=
  ["curl", "-sk", "-X", "POST",
   "-H", "accept: application/json",
   "-H", "Content-Type: application/json",
   "-u", self.admin_username ++ ":" ++ self.admin_password,
   "-d", "\x7b\"title\":\"default\",\"key\":\"" ++ key ++ "\",\"read_only\":false\x7d",
   self.api_url "/user/keys"]

/-- Model of `Gitea::create_repo_cmd` (src/gitea.rs lines 277-305). -/
def Gitea.create_repo_cmd (self : Gitea) (repo : GiteaRepo) : List String :=
  let rp := match repo with
    | GiteaRepo.Private name => (name, "true")
    | GiteaRepo.Public name => (name, "false")
  ["curl", "-sk", "-X", "POST",
   "-H", "accept: application/json",
   "-H", "Content-Type: application/json",
   "-u", self.admin_username ++ ":" ++ self.admin_password,
   "-d", "\x7b\"name\":\"" ++ rp.1 ++ "\",\"readme\":\"Default\",\"auto_init\":true,\"private\":"
     ++ rp.2 ++ "\x7d",
   self.api_url "/user/repos"]

/-- Model of `Image::expose_ports for Gitea` (src/gitea.rs lines 127-133). -/
def Gitea.expose_ports (self : Gitea) : List ContainerPort :=
  if self.tls.isSome then
    [GITEA_SSH_PORT, GITEA_HTTP_PORT, GITEA_HTTP_REDIRECT_PORT]
  else
    [GITEA_SSH_PORT, GITEA_HTTP_REDIRECT_PORT]

/-- Model of `Image::exec_after_start for Gitea` (src/gitea.rs lines
146-175): admin-account creation, then the optional admin-key
registration, then one repository creation per configured repo, then the
caller-supplied admin sub-commands prefixed with `gitea admin`; every
command gets the exit-code-0 readiness condition. -/
def Gitea.exec_after_start (self : Gitea) :
    Except TestcontainersError (List ExecCommand) :=
  let start_commands := [self.create_admin_user_cmd]
  let start_commands :=
    match self.admin_key with
    | some key => start_commands ++ [self.create_admin_key_cmd key]
    | none => start_commands
  let start_commands := start_commands ++ self.repos.map self.create_repo_cmd
  let admin_commands := self.admin_commands.map fun v => ["gitea", "admin"] ++ v
  let start_commands := start_commands ++ admin_commands
  Except.ok (start_commands.map fun v =>
    (ExecCommand.new v).with_cmd_ready_condition (CmdWaitFor.exitCode 0))

/-- C3 counterexample: with TLS enabled, the exposed-port list still
contains the plain-HTTP redirect-target port `GITEA_HTTP_REDIRECT_PORT`,
so that port is not exposed "if and only if TLS is disabled". -/
theorem gitea_expose_ports_counterexample :
    ((Gitea.defaultWith "/build/out").with_tls true).tls.isSome = true ∧
    GITEA_HTTP_REDIRECT_PORT ∈ ((Gitea.defaultWith "/build/out").with_tls true).expose_ports ∧
    ¬ (GITEA_HTTP_REDIRECT_PORT ∈ ((Gitea.defaultWith "/build/out").with_tls true).expose_ports ↔
        ((Gitea.defaultWith "/build/out").with_tls true).tls.isSome = false) := by
  decide

/-- C3 amended: for every Gitea descriptor the exposed container ports
contain the SSH port always, the plain-HTTP redirect port always, and the
main web port (which serves HTTPS under TLS) exactly when TLS is
enabled. -/
theorem gitea_expose_ports_spec (g : Gitea) :
    GITEA_SSH_PORT ∈ g.expose_ports ∧
    GITEA_HTTP_REDIRECT_PORT ∈ g.expose_ports ∧
    (GITEA_HTTP_PORT ∈ g.expose_ports ↔ g.tls.isSome = true) := by
  cases h : g.tls <;>
    simp [Gitea.expose_ports, h, GITEA_SSH_PORT, GITEA_HTTP_PORT, GITEA_HTTP_REDIRECT_PORT]

/-- C8: self-issued TLS material for hostname `h` has the
subject-alternative-name list `[h, "localhost", "127.0.0.1", "::1"]`
when `h` is not `"localhost"` and the duplicate-free
`["localhost", "127.0.0.1", "::1"]` otherwise; the end-entity
certificate is signed by the freshly generated root whose parameters are
marked `Ca(Unconstrained)`, and that CA certificate is what the `ca`
accessor exposes. -/
theorem gitea_tls_cert_new_spec (h : String) :
    (GiteaTlsCert.new h).cert.sanNames =
      some (if h = "localhost" then ["localhost", "127.0.0.1", "::1"]
            else h :: ["localhost", "127.0.0.1", "::1"]) ∧
    (["localhost", "127.0.0.1", "::1"] : List String).Nodup ∧
    (GiteaTlsCert.new h).ca =
      some (Pem.generated
        { params := { subject_alt_names := ["Gitea root CA"]
                      is_ca := IsCa.Ca BasicConstraints.Unconstrained }
          issuer := none }) ∧
    (GiteaTlsCert.new h).cert.issuerOf =
      some (some { subject_alt_names := ["Gitea root CA"]
                   is_ca := IsCa.Ca BasicConstraints.Unconstrained }) := by
  refine ⟨?_, by decide, rfl, rfl⟩
  by_cases hh : h = "localhost" <;>
    simp [GiteaTlsCert.new, Pem.sanNames, CertificateParams.new, CertificateParams.signed_by, hh]

/-- C9: the post-start command list is, in order, the create-admin
command, the admin-key registration call exactly when a key was supplied,
one create-repository call per configured repository in insertion order,
then each extra admin sub-command prefixed with `gitea admin`; every
command carries the exit-code-0 readiness condition; the repository call
payload carries `"private":true` for a private repository and
`"private":false` for a public one. -/
theorem gitea_exec_after_start_spec (g : Gitea) (n : String) :
    (g.exec_after_start.map fun cmds => cmds.map ExecCommand.cmd) =
      Except.ok
        ([g.create_admin_user_cmd]
          ++ (g.admin_key.map g.create_admin_key_cmd).toList
          ++ g.repos.map g.create_repo_cmd
          ++ g.admin_commands.map fun c => ["gitea", "admin"] ++ c) ∧
    (g.exec_after_start.map fun cmds =>
        cmds.all fun e => e.ready == some (CmdWaitFor.exitCode 0)) = Except.ok true ∧
    ("\x7b\"name\":\"" ++ n ++ "\",\"readme\":\"Default\",\"auto_init\":true,\"private\":"
        ++ "true" ++ "\x7d")
      ∈ g.create_repo_cmd (GiteaRepo.Private n) ∧
    ("\x7b\"name\":\"" ++ n ++ "\",\"readme\":\"Default\",\"auto_init\":true,\"private\":"
        ++ "false" ++ "\x7d")
      ∈ g.create_repo_cmd (GiteaRepo.Public n) := by
  refine ⟨?_, ?_, ?_, ?_⟩
  · cases hk : g.admin_key <;>
      simp [Gitea.exec_after_start, hk, ExecCommand.new, ExecCommand.with_cmd_ready_condition,
        Except.map, List.map_map, Function.comp_def]
  · cases hk : g.admin_key <;>
      simp [Gitea.exec_after_start, hk, ExecCommand.new, ExecCommand.with_cmd_ready_condition,
        Except.map, List.all_map, Function.comp_def]
  · simp [Gitea.create_repo_cmd]
  · simp [Gitea.create_repo_cmd]

/-- C10: enabling TLS via `with_tls true` installs the default
self-issued material for hostname `"localhost"` regardless of any
hostname set earlier and regardless of material supplied earlier via
`with_tls_certs`; that material's subject-alternative names are exactly
`["localhost", "127.0.0.1", "::1"]`; `with_tls false` removes all TLS
material, after which `tls_ca` returns `none`. -/
theorem gitea_with_tls_spec (g : Gitea) (h c k : String) :
    ((g.with_hostname h).with_tls true).tls = some (GiteaTlsCert.new "localhost") ∧
    ((g.with_tls_certs c k).with_tls true).tls = some (GiteaTlsCert.new "localhost") ∧
    (GiteaTlsCert.new "localhost").cert.sanNames = some ["localhost", "127.0.0.1", "::1"] ∧
    (g.with_tls false).tls = none ∧
    (g.with_tls false).tls_ca = none ∧
    ((g.with_tls true).with_tls false).tls_ca = none := by
  refine ⟨rfl, rfl, by decide, rfl, rfl, rfl⟩
